import Mathlib

set_option maxRecDepth 40000

/-!
Verification of the gittreehash program (`gittreehash.go`).

The development shallowly embeds the program: bytes are `Nat` (< 256),
machine words are `Nat` reduced modulo `2 ^ 32` or `2 ^ 64` where the code
does 32/64-bit arithmetic, file sizes are `Int` (Go `int64`), and the
filesystem collaborator is a tree of nodes recording what each of the
collaborator calls (`Lstat`, `Open`/read, `Readlink`, `ReadDir`) returns
for the path, so that inconsistent answers (concurrent mutation) are
representable.  The cryptographic digest is a faithful executable SHA-256
(`crypto/sha256`), so that concrete digests can be computed by the kernel.
-/

/-! ## SHA-256 (crypto/sha256) -/

/-- Truncate to a 32-bit word, as Go `uint32` arithmetic does. -/
def w32 (n : Nat) : Nat := n % 2 ^ 32

/-- Truncate to a byte. -/
def w8 (n : Nat) : Nat := n % 2 ^ 8

/-- 32-bit right rotation. -/
def rotr32 (x n : Nat) : Nat := w32 ((x >>> n) ||| (x <<< (32 - n)))

def smallSigma0 (x : Nat) : Nat := (rotr32 x 7) ^^^ (rotr32 x 18) ^^^ (x >>> 3)

def smallSigma1 (x : Nat) : Nat := (rotr32 x 17) ^^^ (rotr32 x 19) ^^^ (x >>> 10)

def bigSigma0 (x : Nat) : Nat := (rotr32 x 2) ^^^ (rotr32 x 13) ^^^ (rotr32 x 22)

def bigSigma1 (x : Nat) : Nat := (rotr32 x 6) ^^^ (rotr32 x 11) ^^^ (rotr32 x 25)

def chFn (x y z : Nat) : Nat := (x &&& y) ^^^ ((0xffffffff ^^^ x) &&& z)

def majFn (x y z : Nat) : Nat := (x &&& y) ^^^ (x &&& z) ^^^ (y &&& z)

/-- The 64 SHA-256 round constants, in decimal. -/
def K256 : List Nat :=
  [1116352408, 1899447441, 3049323471, 3921009573, 961987163, 1508970993,
   2453635748, 2870763221, 3624381080, 310598401, 607225278, 1426881987,
   1925078388, 2162078206, 2614888103, 3248222580, 3835390401, 4022224774,
   264347078, 604807628, 770255983, 1249150122, 1555081692, 1996064986,
   2554220882, 2821834349, 2952996808, 3210313671, 3336571891, 3584528711,
   113926993, 338241895, 666307205, 773529912, 1294757372, 1396182291,
   1695183700, 1986661051, 2177026350, 2456956037, 2730485921, 2820302411,
   3259730800, 3345764771, 3516065817, 3600352804, 4094571909, 275423344,
   430227734, 506948616, 659060556, 883997877, 958139571, 1322822218,
   1537002063, 1747873779, 1955562222, 2024104815, 2227730452, 2361852424,
   2428436474, 2756734187, 3204031479, 3329325298]

/-- The eight 32-bit words of SHA-256 internal state. -/
structure Hst where
  a : Nat
  b : Nat
  c : Nat
  d : Nat
  e : Nat
  f : Nat
  g : Nat
  h : Nat

/-- The SHA-256 initial state, in decimal. -/
def sha256Init : Hst :=
  ⟨1779033703, 3144134277, 1013904242, 2773480762,
   1359893119, 2600822924, 528734635, 1541459225⟩

/-- Big-endian 64-bit encoding of a length in bits. -/
def be64 (n : Nat) : List Nat :=
  [w8 (n >>> 56), w8 (n >>> 48), w8 (n >>> 40), w8 (n >>> 32),
   w8 (n >>> 24), w8 (n >>> 16), w8 (n >>> 8), w8 n]

/-- SHA-256 message padding: `0x80`, zeros to 56 mod 64, then the bit length. -/
def padMsg (msg : List Nat) : List Nat :=
  let l := msg.length
  let zeros := (120 - ((l + 1) % 64)) % 64
  msg ++ 0x80 :: (List.replicate zeros 0 ++ be64 (8 * l))

/-- Big-endian 32-bit words from a list of bytes (taken four at a time). -/
def wordsOfBytes : List Nat → List Nat
  | b0 :: b1 :: b2 :: b3 :: rest =>
      ((b0 <<< 24) + (b1 <<< 16) + (b2 <<< 8) + b3) :: wordsOfBytes rest
  | _ => []

/-- Extend the 16-word message schedule by `k` further words. -/
def extendW : Nat → List Nat → List Nat
  | 0, ws => ws
  | k + 1, ws =>
      let n := ws.length
      let nw := w32 (smallSigma1 (ws.getD (n - 2) 0) + ws.getD (n - 7) 0 +
        smallSigma0 (ws.getD (n - 15) 0) + ws.getD (n - 16) 0)
      extendW k (ws ++ [nw])

/-- One SHA-256 compression round. -/
def roundStep (st : Hst) (k w : Nat) : Hst :=
  let t1 := w32 (st.h + bigSigma1 st.e + chFn st.e st.f st.g + k + w)
  let t2 := w32 (bigSigma0 st.a + majFn st.a st.b st.c)
  ⟨w32 (t1 + t2), st.a, st.b, st.c, w32 (st.d + t1), st.e, st.f, st.g⟩

def roundsAux : List (Nat × Nat) → Hst → Hst
  | [], st => st
  | (k, w) :: rest, st => roundsAux rest (roundStep st k w)

def addSt (x y : Hst) : Hst :=
  ⟨w32 (x.a + y.a), w32 (x.b + y.b), w32 (x.c + y.c), w32 (x.d + y.d),
   w32 (x.e + y.e), w32 (x.f + y.f), w32 (x.g + y.g), w32 (x.h + y.h)⟩

/-- Process one 64-byte block. -/
def compressBlock (st : Hst) (block : List Nat) : Hst :=
  let ws := extendW 48 (wordsOfBytes block)
  addSt st (roundsAux (K256.zip ws) st)

/-- Split a byte list into 64-byte blocks (the fuel is the list length). -/
def chunks64 : Nat → List Nat → List (List Nat)
  | 0, _ => []
  | _ + 1, [] => []
  | n + 1, x :: l => (x :: l).take 64 :: chunks64 n ((x :: l).drop 64)

/-- Big-endian bytes of one 32-bit word. -/
def wordBytes (n : Nat) : List Nat := [w8 (n >>> 24), w8 (n >>> 16), w8 (n >>> 8), w8 n]

/-- SHA-256 of a byte list, as 32 bytes. -/
def sha256 (msg : List Nat) : List Nat :=
  let padded := padMsg msg
  let fin := (chunks64 padded.length padded).foldl compressBlock sha256Init
  wordBytes fin.a ++ wordBytes fin.b ++ wordBytes fin.c ++ wordBytes fin.d ++
  wordBytes fin.e ++ wordBytes fin.f ++ wordBytes fin.g ++ wordBytes fin.h

/-! ## Bytes of strings, Go `io/fs` file mode bits -/

/-- The raw bytes of a (ASCII) string, as Go `[]byte(s)` / `WriteString`. -/
def strBytes (s : String) : List Nat := s.data.map Char.toNat

/-- `fs.ModeDir`. -/
def ModeDir : Nat := 2 ^ 31

/-- `fs.ModeSymlink`. -/
def ModeSymlink : Nat := 2 ^ 27

/-- `fs.ModeDevice`. -/
def ModeDevice : Nat := 2 ^ 26

/-- `fs.ModeNamedPipe`. -/
def ModeNamedPipe : Nat := 2 ^ 25

/-- `fs.ModeSocket`. -/
def ModeSocket : Nat := 2 ^ 24

/-- `fs.ModeCharDevice`.  In Go, a character device has both `ModeDevice` and
`ModeCharDevice` set; a block device has only `ModeDevice`. -/
def ModeCharDevice : Nat := 2 ^ 21

/-- `fs.ModeIrregular`. -/
def ModeIrregular : Nat := 2 ^ 19

/-- `fs.ModeType`, the mask of all type bits. -/
def ModeType : Nat :=
  ModeDir ||| ModeSymlink ||| ModeNamedPipe ||| ModeSocket ||| ModeDevice ||| ModeCharDevice |||
    ModeIrregular

/-! ## Error kinds (serum error codes) and the Go return values -/

/-- Error code `gittreehash-error-unsupported-file-type`. -/
def ErrUnsupportedFileType : String := "gittreehash-error-unsupported-file-type"

/-- Error code `gittreehash-error-io`. -/
def ErrIO : String := "gittreehash-error-io"

/-- Error code `gittreehash-error-concurrent-io`. -/
def ErrConcurrentIO : String := "gittreehash-error-concurrent-io"

/-- A structured rendering of each distinct serum error construction site of the
program.  `ioErr` covers every `serum.Errorf(ErrIO, "%w", err)` wrap (the message
is the underlying error text); `concurrentSizeMismatch` is
`serum.Errorf(ErrConcurrentIO, "expected file size %d but read %d bytes at path %q", ...)`;
`readlinkRace` is
`serum.Errorf(ErrConcurrentIO, "found symlink at path %q but readlink failed: %w", ...)`;
`unsupportedType` is `NewErrUnsupportedFileType(typ, pth)`. -/
inductive SerumError where
  | ioErr (msg : String)
  | concurrentSizeMismatch (claimed observed : Int) (path : String)
  | readlinkRace (path : String)
  | unsupportedType (typ : String) (path : String)
  deriving DecidableEq

/-- The serum error code ("kind") each error construction site uses. -/
def SerumError.code : SerumError → String
  | .ioErr _ => ErrIO
  | .concurrentSizeMismatch _ _ _ => ErrConcurrentIO
  | .readlinkRace _ => ErrConcurrentIO
  | .unsupportedType _ _ => ErrUnsupportedFileType

/-- The result of a Go function call that can also panic; `noFuel` marks
exhaustion of the recursion fuel (never reached at sufficient fuel). -/
inductive GoResult (α : Type) where
  | ret (a : α)
  | panicked (msg : String)
  | noFuel
  deriving DecidableEq

/-- The triple `([32]byte, fs.FileMode, error)` returned by `hashSomething`. -/
structure HashRet where
  hash : List Nat
  mode : Nat
  err : Option SerumError
  deriving DecidableEq

/-- The Go zero value `[32]byte{}`. -/
def zero32 : List Nat := List.replicate 32 0

/-! ## The Digest Stream Hasher (`hashStream`) -/

/-- One read result of an `io.Reader`: a successful buffer of bytes, or a read
failure (with the underlying error text). -/
inductive Chunk where
  | bytes (bs : List Nat)
  | readErr (msg : String)
  deriving DecidableEq

/-- Whether a chunk is a successful read. -/
def Chunk.isBytes : Chunk → Bool
  | .bytes _ => true
  | .readErr _ => false

/-- The bytes of a list of chunks up to (excluding) the first read failure. -/
def chunksFlat : List Chunk → List Nat
  | [] => []
  | .bytes bs :: rest => bs ++ chunksFlat rest
  | .readErr _ :: _ => []

/-- `io.Copy h data`: the bytes delivered, the count delivered, and the first
read error if any (bytes read before the failure are counted and were absorbed
by the digest state, bytes after it are never read). -/
def copyAll : List Chunk → List Nat × Int × Option String
  | [] => ([], 0, none)
  | .bytes bs :: rest =>
      let r := copyAll rest
      (bs ++ r.1, (bs.length : Int) + r.2.1, r.2.2)
  | .readErr m :: _ => ([], 0, some m)

/-- The triple `(hash [32]byte, contentSize int64, err error)` returned by
`hashStream`. -/
structure StreamRet where
  hash : List Nat
  contentSize : Int
  err : Option SerumError
  deriving DecidableEq

/-- `hashStream` from the source: feed the reader through `io.Copy` into a
fresh SHA-256 state; on a read error, wrap it as `ErrIO` and return with the
zero digest (the named return `hash` is never written); otherwise return the
digest and the byte count. -/
def hashStream (data : List Chunk) : StreamRet :=
  let r := copyAll data
  match r.2.2 with
  | some m => { hash := zero32, contentSize := r.2.1, err := some (.ioErr m) }
  | none => { hash := sha256 r.1, contentSize := r.2.1, err := none }

/-! ## The filesystem collaborator model -/

/-- One filesystem node, recording what each collaborator call returns at this
path: `statErr` makes `fsx.Lstat` fail; `mode` and `size` are the `Lstat`
results; `content` is what `Open`/read delivers for a regular file (`none` =
`Open` fails); `target` is what `fsx.Readlink` returns (`none` = it fails);
`entries` is what `fsx.ReadDir` returns, in enumeration order (`none` = it
fails).  Only the fields relevant to the type bits of `mode` are ever consulted,
so inconsistent metadata (e.g. `size` disagreeing with `content`) models
concurrent mutation between the calls. -/
inductive FNode where
  | mk (statErr : Bool) (mode : Nat) (size : Int) (content : Option (List Chunk))
      (target : Option (List Nat)) (entries : Option (List (String × FNode)))

/-- `filepath.Join` on already-clean components. -/
def joinPath (p n : String) : String := p ++ "/" ++ n

/-- The `"blob "` + decimal size + NUL preamble built by both blob branches
(`strconv.Itoa(int(claimedSize))`). -/
def blobPreamble (claimedSize : Int) : List Nat :=
  strBytes "blob " ++ strBytes (toString claimedSize) ++ [0]

/-- The mode-string bytes the directory branch writes for a child, from the
returned `fs.FileMode` of the child — the inner `switch dirEntMode & fs.ModeType`.
`none` is the `default` branch, which panics. -/
def modeBytes (dirEntMode : Nat) : Option (List Nat) :=
  if dirEntMode &&& ModeType = 0 then
    if dirEntMode &&& 0o111 ≠ 0 then some (strBytes "100755 ") else some (strBytes "100644 ")
  else if dirEntMode &&& ModeType = ModeSymlink then some (strBytes "120000 ")
  else if dirEntMode &&& ModeType = ModeDir then some (strBytes "40000 ")
  else none

/-- The loop body of the directory branch: hash each entry in enumeration
order with the given recursive hasher, stopping at the first failing child,
and accumulate `mode-string ++ name ++ NUL ++ hash` per child into the body
buffer.  `ret (.error e)` is the early `return [32]byte{}, mode, err`. -/
def hashChildrenAux (hs : String → FNode → GoResult HashRet) (pth : String) :
    List (String × FNode) → GoResult (Except SerumError (List Nat))
  | [] => .ret (.ok [])
  | (name, child) :: rest =>
    match hs (joinPath pth name) child with
    | .noFuel => .noFuel
    | .panicked m => .panicked m
    | .ret r =>
      match r.err with
      | some e => .ret (.error e)
      | none =>
        match modeBytes r.mode with
        | none => .panicked "unreachable?  other types should have errored earlier"
        | some mb =>
          match hashChildrenAux hs pth rest with
          | .ret (.ok body) => .ret (.ok (mb ++ strBytes name ++ [0] ++ r.hash ++ body))
          | other => other

/-- `hashSomething` from the source, with recursion fuel.  Each branch mirrors
the corresponding `switch mode & fs.ModeType` case of the Go function. -/
def hashSomething : Nat → String → FNode → GoResult HashRet
  | 0, _, _ => .noFuel
  | fuel + 1, pth, .mk statErr mode size content target entries =>
    if statErr then .ret { hash := zero32, mode := 0, err := some (.ioErr "lstat failed") }
    else if mode &&& ModeType = 0 then
      -- regular file
      let preamble := blobPreamble size
      match content with
      | none => .ret { hash := zero32, mode := mode, err := some (.ioErr "open failed") }
      | some chunks =>
        let sr := hashStream (Chunk.bytes preamble :: chunks)
        match sr.err with
        | some e => .ret { hash := zero32, mode := mode, err := some e }
        | none =>
          let contentSize := sr.contentSize - (preamble.length : Int)
          if contentSize ≠ size then
            .ret { hash := sr.hash, mode := mode,
                   err := some (.concurrentSizeMismatch size contentSize pth) }
          else .ret { hash := sr.hash, mode := mode, err := none }
    else if mode &&& ModeType = ModeSymlink then
      let preamble := blobPreamble size
      match target with
      | none => .ret { hash := zero32, mode := mode, err := some (.readlinkRace pth) }
      | some tgt =>
        let sr := hashStream [Chunk.bytes preamble, Chunk.bytes tgt]
        match sr.err with
        | some _ => .panicked "unreachable; all data already in memory"
        | none =>
          let contentSize := sr.contentSize - (preamble.length : Int)
          if contentSize ≠ size then
            .ret { hash := sr.hash, mode := mode,
                   err := some (.concurrentSizeMismatch size contentSize pth) }
          else .ret { hash := sr.hash, mode := mode, err := none }
    else if mode &&& ModeType = ModeDir then
      match entries with
      | none => .ret { hash := zero32, mode := mode, err := some (.ioErr "readdir failed") }
      | some es =>
        match hashChildrenAux (hashSomething fuel) pth es with
        | .noFuel => .noFuel
        | .panicked m => .panicked m
        | .ret (.error e) => .ret { hash := zero32, mode := mode, err := some e }
        | .ret (.ok body) =>
          let preamble := strBytes "tree " ++ strBytes (toString body.length) ++ [0]
          let sr := hashStream [Chunk.bytes preamble, Chunk.bytes body]
          match sr.err with
          | some _ => .panicked "unreachable; all data already in memory"
          | none => .ret { hash := sr.hash, mode := mode, err := none }
    else if mode &&& ModeType = ModeNamedPipe then
      .ret { hash := zero32, mode := mode, err := some (.unsupportedType "pipe" pth) }
    else if mode &&& ModeType = ModeSocket then
      .ret { hash := zero32, mode := mode, err := some (.unsupportedType "socket" pth) }
    else if mode &&& ModeType = ModeDevice ∨ mode &&& ModeType = ModeCharDevice then
      .ret { hash := zero32, mode := mode, err := some (.unsupportedType "device" pth) }
    else if mode &&& ModeType = ModeIrregular then
      .ret { hash := zero32, mode := mode, err := some (.unsupportedType "irregular" pth) }
    else .panicked "unreachable?  irregular should be the catch-all here"

/-! ## Spec-side definition, for comparing the code against the claim wording -/

/-- Follows the wording of the spec (claim C1): the mode-string chosen per
child — `100755` for a regular file with any execute bit, `100644` for any
other regular file, `120000` for a symlink, `40000` for a directory — without
the space that separates it from the name. -/
def specModeString (mode : Nat) : Option (List Nat) :=
  if mode &&& ModeType = 0 then
    if mode &&& 0o111 ≠ 0 then some (strBytes "100755") else some (strBytes "100644")
  else if mode &&& ModeType = ModeSymlink then some (strBytes "120000")
  else if mode &&& ModeType = ModeDir then some (strBytes "40000")
  else none

/-! ## Concrete fixtures -/

/-- A regular file with 3-byte content `ab\n` and consistent metadata. -/
def smallFile : FNode := .mk false 0o644 3 (some [.bytes (strBytes "ab\n")]) none none

/-- An empty subdirectory. -/
def emptyDir : FNode := .mk false (ModeDir ||| 0o755) 0 none none (some [])

/-- A regular file whose content is the byte string `a file\n` (7 bytes),
with consistent metadata. -/
def aFileNode : FNode := .mk false 0o644 7 (some [.bytes (strBytes "a file\n")]) none none

/-- The mode of a typical symlink: `ModeSymlink` plus permission bits. -/
def symlinkMode : Nat := ModeSymlink ||| 0o777

/-- A symlink whose target is the literal string `target string` (13 bytes),
with consistent metadata. -/
def aSymlinkNode : FNode := .mk false symlinkMode 13 none (some (strBytes "target string")) none

/-! ## Helper lemmas -/

/-- Sanity check that the digest embedding is genuine SHA-256: the FIPS 180-4
test vector for the empty message. -/
theorem sha256_empty_test_vector : sha256 [] =
    [0xe3, 0xb0, 0xc4, 0x42, 0x98, 0xfc, 0x1c, 0x14, 0x9a, 0xfb, 0xf4, 0xc8,
     0x99, 0x6f, 0xb9, 0x24, 0x27, 0xae, 0x41, 0xe4, 0x64, 0x9b, 0x93, 0x4c,
     0xa4, 0x95, 0x99, 0x1b, 0x78, 0x52, 0xb8, 0x55] := by
  decide

theorem sha256_length (msg : List Nat) : (sha256 msg).length = 32 := by
  simp [sha256, wordBytes]

theorem hashStream_hash_length (data : List Chunk) : (hashStream data).hash.length = 32 := by
  unfold hashStream
  simp only []
  split <;> simp [zero32, sha256_length]

theorem copyAll_allOk (chunks : List Chunk) (h : ∀ c ∈ chunks, c.isBytes = true) :
    copyAll chunks = (chunksFlat chunks, ((chunksFlat chunks).length : Int), none) := by
  induction chunks with
  | nil => rfl
  | cons c rest ih =>
    cases c with
    | bytes bs =>
      have hrest : ∀ c ∈ rest, c.isBytes = true := fun c hc => h c (List.mem_cons_of_mem _ hc)
      simp [copyAll, chunksFlat, ih hrest]
    | readErr m => exact absurd (h _ (List.mem_cons_self _ _)) (by simp [Chunk.isBytes])

theorem copyAll_firstErr (pre : List Chunk) (m : String) (post : List Chunk)
    (h : ∀ c ∈ pre, c.isBytes = true) :
    copyAll (pre ++ Chunk.readErr m :: post) =
      (chunksFlat pre, ((chunksFlat pre).length : Int), some m) := by
  induction pre with
  | nil => rfl
  | cons c rest ih =>
    cases c with
    | bytes bs =>
      have hrest : ∀ c ∈ rest, c.isBytes = true := fun c hc => h c (List.mem_cons_of_mem _ hc)
      simp [copyAll, chunksFlat, ih hrest]
    | readErr m2 => exact absurd (h _ (List.mem_cons_self _ _)) (by simp [Chunk.isBytes])

theorem hashStream_allOk (chunks : List Chunk) (h : ∀ c ∈ chunks, c.isBytes = true) :
    hashStream chunks =
      { hash := sha256 (chunksFlat chunks), contentSize := ((chunksFlat chunks).length : Int),
        err := none } := by
  unfold hashStream
  rw [copyAll_allOk chunks h]

theorem hashStream_firstErr (pre : List Chunk) (m : String) (post : List Chunk)
    (h : ∀ c ∈ pre, c.isBytes = true) :
    hashStream (pre ++ Chunk.readErr m :: post) =
      { hash := zero32, contentSize := ((chunksFlat pre).length : Int),
        err := some (.ioErr m) } := by
  unfold hashStream
  rw [copyAll_firstErr pre m post h]

theorem hashStream_cons_allOk (p : List Nat) (chunks : List Chunk)
    (h : ∀ c ∈ chunks, c.isBytes = true) :
    hashStream (Chunk.bytes p :: chunks) =
      { hash := sha256 (p ++ chunksFlat chunks),
        contentSize := ((p.length : Int) + ((chunksFlat chunks).length : Int)),
        err := none } := by
  unfold hashStream
  simp [copyAll, copyAll_allOk chunks h]

theorem modeBytes_eq_spec (m : Nat) :
    modeBytes m = (specModeString m).map (fun ms => ms ++ [32]) := by
  unfold modeBytes specModeString
  split_ifs <;> rfl

theorem hashSomething_hash_length (fuel : Nat) (pth : String) (n : FNode) (r : HashRet)
    (h : hashSomething fuel pth n = .ret r) : r.hash.length = 32 := by
  cases fuel with
  | zero => simp [hashSomething] at h
  | succ fuel =>
    obtain ⟨st, mode, size, content, target, entries⟩ := n
    simp only [hashSomething] at h
    repeat' split at h
    all_goals first
      | (injection h with h; subst h; simp [zero32, sha256_length, hashStream_hash_length])
      | cases h

theorem hashSomething_file_step (fuel : Nat) (pth : String) (mode : Nat) (size : Int)
    (chunks : List Chunk) (t : Option (List Nat)) (e : Option (List (String × FNode)))
    (hm : mode &&& ModeType = 0) (hok : ∀ c ∈ chunks, c.isBytes = true) :
    hashSomething (fuel + 1) pth (.mk false mode size (some chunks) t e) =
      (if ((chunksFlat chunks).length : Int) ≠ size then
        .ret { hash := sha256 (blobPreamble size ++ chunksFlat chunks), mode := mode,
               err := some (.concurrentSizeMismatch size ((chunksFlat chunks).length : Int) pth) }
      else
        .ret { hash := sha256 (blobPreamble size ++ chunksFlat chunks), mode := mode,
               err := none }) := by
  have hs := hashStream_cons_allOk (blobPreamble size) chunks hok
  simp only [hashSomething, hm, hs, add_sub_cancel_left]
  norm_num

theorem hashSomething_symlink_step (fuel : Nat) (pth : String) (mode : Nat) (size : Int)
    (c : Option (List Chunk)) (tgt : List Nat) (e : Option (List (String × FNode)))
    (hm : mode &&& ModeType = ModeSymlink) :
    hashSomething (fuel + 1) pth (.mk false mode size c (some tgt) e) =
      (if ((tgt.length : Int) ≠ size) then
        .ret { hash := sha256 (blobPreamble size ++ tgt), mode := mode,
               err := some (.concurrentSizeMismatch size (tgt.length : Int) pth) }
      else
        .ret { hash := sha256 (blobPreamble size ++ tgt), mode := mode, err := none }) := by
  have hs := hashStream_cons_allOk (blobPreamble size) [Chunk.bytes tgt] (by simp [Chunk.isBytes])
  simp only [chunksFlat, List.append_nil] at hs
  simp only [hashSomething, hm, hs, add_sub_cancel_left]
  norm_num [ModeSymlink, ModeType, ModeDir, ModeNamedPipe, ModeSocket, ModeDevice,
    ModeCharDevice, ModeIrregular]

theorem hashSomething_dir_step (fuel : Nat) (pth : String) (mode : Nat) (size : Int)
    (c : Option (List Chunk)) (t : Option (List Nat)) (es : List (String × FNode))
    (hm : mode &&& ModeType = ModeDir) :
    hashSomething (fuel + 1) pth (.mk false mode size c t (some es)) =
      (match hashChildrenAux (hashSomething fuel) pth es with
      | .noFuel => .noFuel
      | .panicked m => .panicked m
      | .ret (.error e2) => .ret { hash := zero32, mode := mode, err := some e2 }
      | .ret (.ok body) =>
          .ret { hash := sha256 (strBytes "tree " ++ strBytes (toString body.length) ++ [0] ++ body),
                 mode := mode, err := none }) := by
  cases hh : hashChildrenAux (hashSomething fuel) pth es with
  | noFuel => simp only [hashSomething, hm, hh]; norm_num [ModeDir, ModeType, ModeSymlink]
  | panicked m => simp only [hashSomething, hm, hh]; norm_num [ModeDir, ModeType, ModeSymlink]
  | ret res =>
    cases res with
    | error e2 => simp only [hashSomething, hm, hh]; norm_num [ModeDir, ModeType, ModeSymlink]
    | ok body =>
      have hs := hashStream_cons_allOk
        (strBytes "tree " ++ strBytes (toString body.length) ++ [0]) [Chunk.bytes body]
        (by simp [Chunk.isBytes])
      simp only [chunksFlat, List.append_nil] at hs
      simp only [hashSomething, hm, hh, hs]
      norm_num [ModeDir, ModeType, ModeSymlink, List.append_assoc]

/-! ## The claims -/

/-- C1: for every directory, the body hashed is, for each child in order,
exactly mode-string, one space (byte 32), the raw name bytes, one zero byte,
then the raw 32-byte child digest with no delimiter following the digest; the
mode-string is chosen per child as the spec-side `specModeString` states
(100755 for an executable regular file, 100644 for other regular files,
120000 for a symlink, 40000 for a directory); and the accumulated body is
prefixed with `tree `, the decimal digits of the body length and a zero byte
before hashing. -/
theorem C1_tree_serialization :
    (∀ fuel pth, hashChildrenAux (hashSomething fuel) pth [] = .ret (.ok [])) ∧
    (∀ fuel pth name child rest r ms tail,
        hashSomething fuel (joinPath pth name) child = .ret r → r.err = none →
        specModeString r.mode = some ms →
        hashChildrenAux (hashSomething fuel) pth rest = .ret (.ok tail) →
        r.hash.length = 32 ∧
        hashChildrenAux (hashSomething fuel) pth ((name, child) :: rest) =
          .ret (.ok (ms ++ [32] ++ strBytes name ++ [0] ++ r.hash ++ tail))) ∧
    (∀ fuel pth mode size content target es body,
        mode &&& ModeType = ModeDir →
        hashChildrenAux (hashSomething fuel) pth es = .ret (.ok body) →
        hashSomething (fuel + 1) pth (.mk false mode size content target (some es)) =
          .ret { hash := sha256 (strBytes "tree " ++ strBytes (toString body.length) ++ [0] ++ body),
                 mode := mode, err := none }) := by
  refine ⟨fun fuel pth => rfl, ?_, ?_⟩
  · intro fuel pth name child rest r ms tail hchild herr hms htail
    refine ⟨hashSomething_hash_length _ _ _ _ hchild, ?_⟩
    have hmb : modeBytes r.mode = some (ms ++ [32]) := by
      rw [modeBytes_eq_spec, hms]; rfl
    simp only [hashChildrenAux, hchild, herr, hmb, htail]
  · intro fuel pth mode size content target es body hm hes
    rw [hashSomething_dir_step fuel pth mode size content target es hm, hes]

/-- C1 witness: the serialization theorem applied to a concrete one-child
directory. -/
theorem C1_tree_serialization_witness :
    hashChildrenAux (hashSomething 1) "d" [("name", smallFile)] =
      .ret (.ok (strBytes "100644" ++ [32] ++ strBytes "name" ++ [0] ++
        sha256 (strBytes "blob 3\x00ab\n") ++ [])) ∧
    hashSomething 2 "d" (.mk false (ModeDir ||| 0o755) 0 none none (some [("name", smallFile)])) =
      .ret { hash := sha256 (strBytes "tree 44\x00" ++ strBytes "100644" ++ [32] ++
               strBytes "name" ++ [0] ++ sha256 (strBytes "blob 3\x00ab\n")),
             mode := ModeDir ||| 0o755, err := none } := by
  have h1 := (C1_tree_serialization.2.1 1 "d" "name" smallFile []
      { hash := sha256 (strBytes "blob 3\x00ab\n"), mode := 0o644, err := none }
      (strBytes "100644") [] (by decide) rfl (by decide)
      (C1_tree_serialization.1 1 "d")).2
  refine ⟨h1, ?_⟩
  have h2 := C1_tree_serialization.2.2 1 "d" (ModeDir ||| 0o755) 0 none none
      [("name", smallFile)]
      (strBytes "100644" ++ [32] ++ strBytes "name" ++ [0] ++
        sha256 (strBytes "blob 3\x00ab\n") ++ [])
      (by decide) h1
  exact h2.trans (by decide)

/-- C2: for a regular file whose successfully-read content length differs from
the claimed metadata size, the call returns the concurrent-I/O error carrying
the claimed size, the observed size (total bytes consumed minus the preamble
length) and the path, so it never returns a digest as a success result. -/
theorem C2_size_mismatch (fuel : Nat) (pth : String) (mode : Nat) (size : Int)
    (chunks : List Chunk) (t : Option (List Nat)) (e : Option (List (String × FNode)))
    (hm : mode &&& ModeType = 0) (hok : ∀ c ∈ chunks, c.isBytes = true)
    (hne : ((chunksFlat chunks).length : Int) ≠ size) :
    hashSomething (fuel + 1) pth (.mk false mode size (some chunks) t e) =
      .ret { hash := sha256 (blobPreamble size ++ chunksFlat chunks), mode := mode,
             err := some (.concurrentSizeMismatch size ((chunksFlat chunks).length : Int) pth) } ∧
    (SerumError.concurrentSizeMismatch size ((chunksFlat chunks).length : Int) pth).code =
      ErrConcurrentIO := by
  refine ⟨?_, rfl⟩
  rw [hashSomething_file_step fuel pth mode size chunks t e hm hok, if_pos hne]

/-- C2 witness: a 3-byte file claiming size 5 fails with the mismatch error. -/
theorem C2_size_mismatch_witness :
    hashSomething 1 "f" (.mk false 0o644 5 (some [.bytes [97, 98, 99]]) none none) =
      .ret { hash := sha256 (blobPreamble 5 ++ [97, 98, 99]), mode := 0o644,
             err := some (.concurrentSizeMismatch 5 3 "f") } ∧
    (SerumError.concurrentSizeMismatch 5 3 "f").code = ErrConcurrentIO :=
  C2_size_mismatch 0 "f" 0o644 5 [Chunk.bytes [97, 98, 99]] none none (by decide) (by decide)
    (by decide)

/-- C3 (code bug): a character device is a device node, and in Go its mode has
both `ModeDevice` and `ModeCharDevice` set, so `mode & fs.ModeType` equals the
combination, matching neither the `fs.ModeDevice` nor the `fs.ModeCharDevice`
switch case; the code reaches the default branch and panics instead of
returning the unsupported-file-type error its own doc comment promises for
device nodes. -/
theorem C3_char_device_panics :
    hashSomething 1 "dev" (.mk false (ModeDevice ||| ModeCharDevice) 0 none none none) =
      .panicked "unreachable?  irregular should be the catch-all here" := by decide

/-- C4 (counterexample): the same directory contents presented in two
different enumeration orders hash to different digests — the implementation
does not sort entries before composing the parent byte sequence. -/
theorem C4_counterexample :
    hashSomething 3 "d" (.mk false (ModeDir ||| 0o755) 0 none none
        (some [("name", smallFile), ("sub", emptyDir)])) ≠
      hashSomething 3 "d" (.mk false (ModeDir ||| 0o755) 0 none none
        (some [("sub", emptyDir), ("name", smallFile)])) := by decide

/-- C4 (amended): the directory digest is composed in the enumeration order
returned by the filesystem (here deliberately not name-sorted: `sub` before
`name`), so hashing is deterministic for a fixed enumeration order but not
invariant under re-ordering. -/
theorem C4_amended_enumeration_order :
    hashSomething 3 "d" (.mk false (ModeDir ||| 0o755) 0 none none
        (some [("sub", emptyDir), ("name", smallFile)])) =
      .ret { hash := sha256 (strBytes "tree 86\x00" ++
               strBytes "40000 sub\x00" ++ sha256 (strBytes "tree 0\x00") ++
               strBytes "100644 name\x00" ++ sha256 (strBytes "blob 3\x00ab\n")),
             mode := ModeDir ||| 0o755, err := none } := by decide

/-- C5 (counterexample): the byte string `a file\n` has 7 bytes, not 8, so the
digest of such a regular file is the hash of `blob 7\0a file\n`, which differs
from the hash of `blob 8\0a file\n` stated by the claim. -/
theorem C5_counterexample :
    (strBytes "a file\n").length = 7 ∧
    hashSomething 1 "a_file" aFileNode =
      .ret { hash := sha256 (strBytes "blob 7\x00a file\n"), mode := 0o644, err := none } ∧
    sha256 (strBytes "blob 7\x00a file\n") ≠ sha256 (strBytes "blob 8\x00a file\n") := by decide

/-- C5 (amended): for a regular file whose content is `a file\n` (7 bytes),
the returned digest equals the hash of `blob 7\0a file\n`. -/
theorem C5_amended_seven_bytes :
    hashSomething 1 "a_file" aFileNode =
      .ret { hash := sha256 (strBytes "blob 7\x00a file\n"), mode := 0o644, err := none } := by
  decide

/-- C6 (counterexample): the literal `target string` has 13 bytes, not 14, so
the digest of such a symlink is the hash of `blob 13\0target string`, which
differs from the hash of `blob 14\0target string` stated by the claim. -/
theorem C6_counterexample :
    (strBytes "target string").length = 13 ∧
    hashSomething 1 "a_symlink" aSymlinkNode =
      .ret { hash := sha256 (strBytes "blob 13\x00target string"), mode := symlinkMode,
             err := none } ∧
    sha256 (strBytes "blob 13\x00target string") ≠ sha256 (strBytes "blob 14\x00target string") := by
  decide

/-- C6 (amended): for a symlink whose target is `target string` (13 bytes),
the digest equals the hash of `blob 13\0target string`; the digest depends
only on the target string returned by readlink — the fields describing
anything else at the path (content, entries) are irrelevant, i.e. the target
is never followed. -/
theorem C6_amended_thirteen_bytes :
    ∀ (content : Option (List Chunk)) (entries : Option (List (String × FNode))),
      hashSomething 1 "a_symlink"
          (.mk false symlinkMode 13 content (some (strBytes "target string")) entries) =
        .ret { hash := sha256 (strBytes "blob 13\x00target string"), mode := symlinkMode,
               err := none } := by
  intro content entries
  rfl

/-- C7: an empty regular file hashes to the hash of exactly the 7-byte
preamble `blob 0\0` with no content bytes, and an empty directory hashes to
the hash of exactly `tree 0\0`; both succeed. -/
theorem C7_empty_file_and_dir :
    (strBytes "blob 0\x00").length = 7 ∧
    hashSomething 1 "f" (.mk false 0o644 0 (some []) none none) =
      .ret { hash := sha256 (strBytes "blob 0\x00"), mode := 0o644, err := none } ∧
    hashSomething 1 "d" (.mk false (ModeDir ||| 0o755) 0 none none (some [])) =
      .ret { hash := sha256 (strBytes "tree 0\x00"), mode := ModeDir ||| 0o755, err := none } := by
  decide

/-- C8: for a path whose lstat reported a symlink, a failing readlink yields
the concurrent-I/O error kind, not the plain I/O kind. -/
theorem C8_readlink_failure_is_concurrent (fuel : Nat) (pth : String) (mode : Nat) (size : Int)
    (content : Option (List Chunk)) (entries : Option (List (String × FNode)))
    (hm : mode &&& ModeType = ModeSymlink) :
    hashSomething (fuel + 1) pth (.mk false mode size content none entries) =
      .ret { hash := zero32, mode := mode, err := some (.readlinkRace pth) } ∧
    (SerumError.readlinkRace pth).code = ErrConcurrentIO ∧ ErrConcurrentIO ≠ ErrIO := by
  refine ⟨?_, rfl, by decide⟩
  simp only [hashSomething, hm]
  norm_num [ModeSymlink, ModeType, ModeDir, ModeNamedPipe, ModeSocket, ModeDevice,
    ModeCharDevice, ModeIrregular]

/-- C8 witness. -/
theorem C8_readlink_failure_is_concurrent_witness :
    hashSomething 1 "lnk" (.mk false symlinkMode 13 none none none) =
      .ret { hash := zero32, mode := symlinkMode, err := some (.readlinkRace "lnk") } ∧
    (SerumError.readlinkRace "lnk").code = ErrConcurrentIO ∧ ErrConcurrentIO ≠ ErrIO :=
  C8_readlink_failure_is_concurrent 0 "lnk" symlinkMode 13 none none (by decide)

/-- C9: the stream hasher returns the digest of the full concatenation of the
supplied buffers together with the exact total byte count; when a buffer read
fails, it surfaces an I/O-kind error and the digest result is the zero value,
never a partial digest. -/
theorem C9_hashStream_contract (chunks : List Chunk) :
    ((∀ c ∈ chunks, c.isBytes = true) →
      hashStream chunks =
        { hash := sha256 (chunksFlat chunks), contentSize := ((chunksFlat chunks).length : Int),
          err := none }) ∧
    (∀ pre m post, chunks = pre ++ Chunk.readErr m :: post → (∀ c ∈ pre, c.isBytes = true) →
      hashStream chunks =
        { hash := zero32, contentSize := ((chunksFlat pre).length : Int),
          err := some (.ioErr m) } ∧ (SerumError.ioErr m).code = ErrIO) := by
  refine ⟨fun h => hashStream_allOk chunks h, ?_⟩
  intro pre m post hsplit hok
  subst hsplit
  exact ⟨hashStream_firstErr pre m post hok, rfl⟩

/-- C9 witness. -/
theorem C9_hashStream_contract_witness :
    hashStream [Chunk.bytes [1, 2], Chunk.bytes [3]] =
      { hash := sha256 [1, 2, 3], contentSize := 3, err := none } ∧
    hashStream [Chunk.bytes [1, 2], Chunk.readErr "boom", Chunk.bytes [9]] =
      { hash := zero32, contentSize := 2, err := some (.ioErr "boom") } ∧
    (SerumError.ioErr "boom").code = ErrIO :=
  ⟨(C9_hashStream_contract [Chunk.bytes [1, 2], Chunk.bytes [3]]).1 (by decide),
   ((C9_hashStream_contract [Chunk.bytes [1, 2], Chunk.readErr "boom", Chunk.bytes [9]]).2
      [Chunk.bytes [1, 2]] "boom" [Chunk.bytes [9]] rfl (by decide)).1,
   ((C9_hashStream_contract [Chunk.bytes [1, 2], Chunk.readErr "boom", Chunk.bytes [9]]).2
      [Chunk.bytes [1, 2]] "boom" [Chunk.bytes [9]] rfl (by decide)).2⟩

/-- C10 (implicit): on a size mismatch for a regular file or symlink the
already-computed digest is returned alongside the concurrent-I/O error,
whereas every other error path — stat failure, open failure, mid-read
failure, readlink failure, directory-enumeration failure, child failure,
unsupported type — returns the all-zero 32-byte hash with its error. -/
theorem C10_error_path_hashes :
    (∀ fuel pth mode size chunks t e, mode &&& ModeType = 0 →
      (∀ c ∈ chunks, c.isBytes = true) → ((chunksFlat chunks).length : Int) ≠ size →
      hashSomething (fuel + 1) pth (.mk false mode size (some chunks) t e) =
        .ret { hash := sha256 (blobPreamble size ++ chunksFlat chunks), mode := mode,
               err := some (.concurrentSizeMismatch size ((chunksFlat chunks).length : Int) pth) }) ∧
    (∀ fuel pth mode size c tgt e, mode &&& ModeType = ModeSymlink →
      ((tgt : List Nat).length : Int) ≠ size →
      hashSomething (fuel + 1) pth (.mk false mode size c (some tgt) e) =
        .ret { hash := sha256 (blobPreamble size ++ tgt), mode := mode,
               err := some (.concurrentSizeMismatch size (tgt.length : Int) pth) }) ∧
    (∀ fuel pth mode size c t e,
      hashSomething (fuel + 1) pth (.mk true mode size c t e) =
        .ret { hash := zero32, mode := 0, err := some (.ioErr "lstat failed") }) ∧
    (∀ fuel pth mode size t e, mode &&& ModeType = 0 →
      hashSomething (fuel + 1) pth (.mk false mode size none t e) =
        .ret { hash := zero32, mode := mode, err := some (.ioErr "open failed") }) ∧
    (∀ fuel pth mode size pre m post t e, mode &&& ModeType = 0 →
      (∀ c ∈ pre, c.isBytes = true) →
      hashSomething (fuel + 1) pth
          (.mk false mode size (some (pre ++ Chunk.readErr m :: post)) t e) =
        .ret { hash := zero32, mode := mode, err := some (.ioErr m) }) ∧
    (∀ fuel pth mode size c e, mode &&& ModeType = ModeSymlink →
      hashSomething (fuel + 1) pth (.mk false mode size c none e) =
        .ret { hash := zero32, mode := mode, err := some (.readlinkRace pth) }) ∧
    (∀ fuel pth mode size c t, mode &&& ModeType = ModeDir →
      hashSomething (fuel + 1) pth (.mk false mode size c t none) =
        .ret { hash := zero32, mode := mode, err := some (.ioErr "readdir failed") }) ∧
    (∀ fuel pth mode size c t es e2, mode &&& ModeType = ModeDir →
      hashChildrenAux (hashSomething fuel) pth es = .ret (.error e2) →
      hashSomething (fuel + 1) pth (.mk false mode size c t (some es)) =
        .ret { hash := zero32, mode := mode, err := some e2 }) ∧
    (∀ fuel pth mode size c t e,
      (mode &&& ModeType = ModeNamedPipe ∨ mode &&& ModeType = ModeSocket ∨
       mode &&& ModeType = ModeDevice ∨ mode &&& ModeType = ModeIrregular) →
      ∃ typ, hashSomething (fuel + 1) pth (.mk false mode size c t e) =
        .ret { hash := zero32, mode := mode, err := some (.unsupportedType typ pth) }) := by
  refine ⟨?_, ?_, ?_, ?_, ?_, ?_, ?_, ?_, ?_⟩
  · intro fuel pth mode size chunks t e hm hok hne
    rw [hashSomething_file_step fuel pth mode size chunks t e hm hok, if_pos hne]
  · intro fuel pth mode size c tgt e hm hne
    rw [hashSomething_symlink_step fuel pth mode size c tgt e hm, if_pos hne]
  · intro fuel pth mode size c t e
    simp [hashSomething]
  · intro fuel pth mode size t e hm
    simp only [hashSomething, hm]
    norm_num
  · intro fuel pth mode size pre m post t e hm hok
    have hs := hashStream_firstErr (Chunk.bytes (blobPreamble size) :: pre) m post
      (by intro c hc
          rcases List.mem_cons.mp hc with h | h
          · subst h; rfl
          · exact hok c h)
    simp only [List.cons_append] at hs
    simp only [hashSomething, hm, hs]
    norm_num
  · intro fuel pth mode size c e hm
    simp only [hashSomething, hm]
    norm_num [ModeSymlink, ModeType, ModeDir, ModeNamedPipe, ModeSocket, ModeDevice,
      ModeCharDevice, ModeIrregular]
  · intro fuel pth mode size c t hm
    simp only [hashSomething, hm]
    norm_num [ModeSymlink, ModeType, ModeDir, ModeNamedPipe, ModeSocket, ModeDevice,
      ModeCharDevice, ModeIrregular]
  · intro fuel pth mode size c t es e2 hm hes
    rw [hashSomething_dir_step fuel pth mode size c t es hm, hes]
  · intro fuel pth mode size c t e hm
    rcases hm with hm | hm | hm | hm
    · refine ⟨"pipe", ?_⟩
      simp only [hashSomething, hm]
      norm_num [ModeSymlink, ModeDir, ModeNamedPipe, ModeSocket, ModeDevice,
        ModeCharDevice, ModeIrregular]
    · refine ⟨"socket", ?_⟩
      simp only [hashSomething, hm]
      norm_num [ModeSymlink, ModeDir, ModeNamedPipe, ModeSocket, ModeDevice,
        ModeCharDevice, ModeIrregular]
    · refine ⟨"device", ?_⟩
      simp only [hashSomething, hm]
      norm_num [ModeSymlink, ModeDir, ModeNamedPipe, ModeSocket, ModeDevice,
        ModeCharDevice, ModeIrregular]
    · refine ⟨"irregular", ?_⟩
      simp only [hashSomething, hm]
      norm_num [ModeSymlink, ModeDir, ModeNamedPipe, ModeSocket, ModeDevice,
        ModeCharDevice, ModeIrregular]

/-- C10 witness: a symlink whose 3-byte target contradicts the claimed size 5
returns the computed (non-zero) digest alongside the error, and a stat
failure returns the all-zero hash. -/
theorem C10_error_path_hashes_witness :
    hashSomething 1 "lnk" (.mk false symlinkMode 5 none (some (strBytes "abc")) none) =
      .ret { hash := sha256 (blobPreamble 5 ++ strBytes "abc"), mode := symlinkMode,
             err := some (.concurrentSizeMismatch 5 3 "lnk") } ∧
    sha256 (blobPreamble 5 ++ strBytes "abc") ≠ zero32 ∧
    hashSomething 1 "s" (.mk true 0o644 0 none none none) =
      .ret { hash := zero32, mode := 0, err := some (.ioErr "lstat failed") } :=
  ⟨C10_error_path_hashes.2.1 0 "lnk" symlinkMode 5 none (strBytes "abc") none (by decide)
      (by decide),
   by decide,
   C10_error_path_hashes.2.2.1 0 "s" 0o644 0 none none none⟩
